import Mathlib

/-!
Shallow embedding of the `CallGateway` WebSocket signaling relay
(`src/websockets/call.gateway.ts`) of the tutorhub-server repository.

The gateway keeps one in-process record
`socketList : Record<string, {userName, video, audio}>` (the Presence
Registry) and relies on the socket.io adapter for room membership (the
Room Directory).  We model:

* `live`       — the set of currently connected socket ids
                 (`server.sockets.sockets` keys; each live socket is
                 also in its private self-named adapter room);
* `rooms`      — the explicit `client.join(roomId)` membership pairs
                 `(roomId, connectionId)`;
* `socketList` — the presence registry, an association list keyed by
                 connection id, mirroring JS object insertion-order
                 semantics (replace-in-place on overwrite).

`server.to(x)` targets the adapter room named `x`: the explicit members
of `x` plus, when `x` is a live socket id, that socket itself (socket.io
auto-joins every socket to a room named by its own id).
`client.broadcast.to(x)` is the same set minus the sender.

Handlers are total functions `state → inputs → state × List Send`
(`Send` = recipient id × payload); `handleToggleCameraAudio` returns
`Option` because the source dereferences `this.socketList[client.id]`
without a guard and throws a `TypeError` when the entry is absent.
-/

/-- Per-connection presence entry, `{ userName, video, audio }` in the
source's `socketList`. -/
structure Presence where
  userName : String
  video : Bool
  audio : Bool
deriving DecidableEq, Repr

/-- JS-object lookup `obj[key]` on the presence record. -/
def lookupP : List (String × Presence) → String → Option Presence
  | [], _ => none
  | (k, v) :: rest, key => if k = key then some v else lookupP rest key

/-- JS-object assignment `obj[key] = v`: replace in place if the key is
present, otherwise append (insertion order preserved). -/
def setP : List (String × Presence) → String → Presence → List (String × Presence)
  | [], k, v => [(k, v)]
  | (k', v') :: rest, k, v =>
      if k' = k then (k, v) :: rest else (k', v') :: setP rest k v

/-- JS `delete obj[key]`. -/
def eraseP : List (String × Presence) → String → List (String × Presence)
  | [], _ => []
  | (k', v') :: rest, k =>
      if k' = k then eraseP rest k else (k', v') :: eraseP rest k

/-- Gateway-relevant process state. -/
structure GatewayState where
  live : List String
  rooms : List (String × String)
  socketList : List (String × Presence)
deriving DecidableEq, Repr

/-- The empty initial state (fresh process). -/
def s0 : GatewayState := ⟨[], [], []⟩

/-- Explicit members of adapter room `r` (the connections that called
`client.join(r)` and have not left it). -/
def roomMembers (s : GatewayState) (r : String) : List String :=
  (s.rooms.filter (fun p => p.1 = r)).map (fun p => p.2)

/-- `client.join(roomId)`: socket.io room membership is a set — adding an
already-present member is a no-op. -/
def joinRoomPairs (rs : List (String × String)) (r c : String) :
    List (String × String) :=
  if (r, c) ∈ rs then rs else rs ++ [(r, c)]

/-- The sockets targeted by `server.to(x)`: the explicit members of room
`x`, plus `x` itself when `x` is a live socket id (every socket is in
its own self-named adapter room). -/
def targets (s : GatewayState) (x : String) : List String :=
  roomMembers s x ++
    (if x ∈ s.live ∧ x ∉ roomMembers s x then [x] else [])

/-- Outbound event payloads (`FE-*` emissions). -/
inductive Payload where
  | userExists (error : Bool)
  | userJoin (users : List (String × Option Presence))
  | receiveCall (signal : String) (fromId : String) (info : Option Presence)
  | callAccepted (signal : String) (answerId : String)
  | receiveMessage (msg : String) (sender : String)
  | userLeave (userId : String) (userName : List String)
  | toggleCamera (userId : String) (switchTarget : String)
deriving DecidableEq, Repr

/-- One unicast delivery: recipient connection id and payload. -/
abbrev Send := String × Payload

/-- Whether a member's presence display name matches — the source's
`this.socketList[client]?.userName === data.userName` (absent entry
compares unequal). -/
def nameMatches (sl : List (String × Presence)) (c userName : String) : Bool :=
  match lookupP sl c with
  | some p => p.userName = userName
  | none => false

/-- `BE-check-user`: scan the adapter room's sockets for a presence with
the requested display name; reply `FE-error-user-exist {error}` to the
requesting client only.  No state change. -/
def handleCheckUser (s : GatewayState) (client roomId userName : String) :
    GatewayState × List Send :=
  (s, [(client, Payload.userExists
        ((targets s roomId).any (fun c => nameMatches s.socketList c userName)))])

/-- The `users` list computed by `BE-join-room`: for every socket in the
adapter room, `{ userId: clientId, info: this.socketList[clientId] }`
(`info` is `undefined`, i.e. `none`, for a socket without a presence
entry). -/
def memberSnapshot (s : GatewayState) (roomId : String) :
    List (String × Option Presence) :=
  (targets s roomId).map (fun c => (c, lookupP s.socketList c))

/-- `BE-join-room`: `client.join(roomId)`, set the presence entry with
`video = true, audio = true`, then broadcast the post-join member
snapshot `[{userId, info}]` to the room excluding the joiner
(`client.broadcast.to(roomId).emit('FE-user-join', users)`). -/
def handleJoinRoom (s : GatewayState) (client roomId userName : String) :
    GatewayState × List Send :=
  let s' : GatewayState :=
    { s with rooms := joinRoomPairs s.rooms roomId client,
             socketList := setP s.socketList client ⟨userName, true, true⟩ }
  (s', ((targets s' roomId).filter (fun c => c ≠ client)).map
        (fun r => (r, Payload.userJoin (memberSnapshot s' roomId))))

/-- `BE-call-user`: relay `{signal, from: data.from, info:
socketList[client.id]}` to `server.to(data.userToCall)`.  The `from`
field is copied from the inbound payload; the presence metadata is
looked up by the sender's actual socket id.  No state change. -/
def handleCallUser (s : GatewayState) (client userToCall fromId signal : String) :
    GatewayState × List Send :=
  (s, (targets s userToCall).map
        (fun r => (r, Payload.receiveCall signal fromId (lookupP s.socketList client))))

/-- `BE-accept-call`: relay `{signal, answerId: client.id}` to
`server.to(data.to)`.  No state change. -/
def handleAcceptCall (s : GatewayState) (client signal toId : String) :
    GatewayState × List Send :=
  (s, (targets s toId).map
        (fun r => (r, Payload.callAccepted signal client)))

/-- `BE-send-message`: broadcast `{msg, sender}` to `server.to(roomId)`
— every member of the room, sender included when it is a member.  No
membership or presence check on the sender; no state change. -/
def handleSendMessage (s : GatewayState) (client roomId msg sender : String) :
    GatewayState × List Send :=
  (s, (targets s roomId).map
        (fun r => (r, Payload.receiveMessage msg sender)))

/-- JS bracket indexing `this.server.sockets.sockets[leaverId]`: in
socket.io v3+ (which this code targets — it calls `allSockets()`, a
v3+ API) `sockets.sockets` is a `Map`, and property access on a `Map`
never consults its entries, so the lookup yields `undefined` for every
socket id. -/
def socketsMapIndex (live : List String) (leaverId : String) : Option String :=
  none

/-- `BE-leave-room`: delete the presence entry, broadcast
`FE-user-leave {userId, userName: [userId]}` to the room excluding the
leaver, then attempt `socketRoom.leave(roomId)` — guarded by the
always-`undefined` `Map` bracket lookup, so room membership is never
actually removed. -/
def handleLeaveRoom (s : GatewayState) (client roomId : String) :
    GatewayState × List Send :=
  let sends := ((targets s roomId).filter (fun c => c ≠ client)).map
      (fun r => (r, Payload.userLeave client [client]))
  match socketsMapIndex s.live client with
  | some _ =>
      ({ s with socketList := eraseP s.socketList client,
                rooms := s.rooms.filter
                  (fun p => ¬(p.1 = roomId ∧ p.2 = client)) }, sends)
  | none => ({ s with socketList := eraseP s.socketList client }, sends)

/-- `BE-toggle-camera-audio`: flip `socketList[client.id].video` (when
`switchTarget === 'video'`) or `.audio`, then broadcast
`FE-toggle-camera {userId, switchTarget}` to the room excluding the
sender.  The source reads `.video` off `this.socketList[client.id]`
without a guard: when the entry is absent this throws a `TypeError`,
modelled as `none` (no state change, no emission). -/
def handleToggleCameraAudio (s : GatewayState) (client roomId switchTarget : String) :
    Option (GatewayState × List Send) :=
  match lookupP s.socketList client with
  | none => none
  | some p =>
    let p' := if switchTarget = "video"
              then { p with video := !p.video }
              else { p with audio := !p.audio }
    let s' := { s with socketList := setP s.socketList client p' }
    some (s', ((targets s' roomId).filter (fun c => c ≠ client)).map
          (fun r => (r, Payload.toggleCamera client switchTarget)))

/-- Inbound events: the gateway's subscribed messages plus the transport
level connect/disconnect notifications. -/
inductive Event where
  | connect (c : String)
  | disconnect (c : String)
  | checkUser (client roomId userName : String)
  | joinRoom (client roomId userName : String)
  | callUser (client userToCall fromId signal : String)
  | acceptCall (client signal toId : String)
  | sendMessage (client roomId msg sender : String)
  | leaveRoom (client roomId : String)
  | toggleCameraAudio (client roomId switchTarget : String)
deriving DecidableEq, Repr

/-- One event's effect on the gateway state.  `connect` registers the
socket (`handleConnection` only logs); `disconnect` is pure transport
behavior: socket.io removes the socket from every adapter room, and the
gateway — which implements `OnGatewayConnection` only, with no
`OnGatewayDisconnect` — runs no cleanup of its own, so `socketList` is
untouched.  A toggle whose presence lookup throws leaves the state
unchanged (the framework catches the exception). -/
def step (s : GatewayState) : Event → GatewayState
  | .connect c =>
      { s with live := if c ∈ s.live then s.live else s.live ++ [c] }
  | .disconnect c =>
      { s with live := s.live.filter (fun x => x ≠ c),
               rooms := s.rooms.filter (fun p => p.2 ≠ c) }
  | .checkUser cl r u => (handleCheckUser s cl r u).1
  | .joinRoom cl r u => (handleJoinRoom s cl r u).1
  | .callUser cl t f sig => (handleCallUser s cl t f sig).1
  | .acceptCall cl sig t => (handleAcceptCall s cl sig t).1
  | .sendMessage cl r m sn => (handleSendMessage s cl r m sn).1
  | .leaveRoom cl r => (handleLeaveRoom s cl r).1
  | .toggleCameraAudio cl r t =>
      match handleToggleCameraAudio s cl r t with
      | some (s', _) => s'
      | none => s

/-- Run a trace of events from a state. -/
def run (s : GatewayState) : List Event → GatewayState
  | [] => s
  | e :: es => run (step s e) es

/-- The rooms a connection is currently an explicit member of. -/
def roomsOf (s : GatewayState) (c : String) : List String :=
  (s.rooms.filter (fun p => p.2 = c)).map (fun p => p.1)

/-- How one event changes whether connection `c` has a presence entry:
`BE-join-room` from `c` creates it, `BE-leave-room` from `c` deletes
it, every other event leaves its existence unchanged. -/
def presenceTrack (c : String) (b : Bool) : Event → Bool
  | .joinRoom cl _ _ => if cl = c then true else b
  | .leaveRoom cl _ => if cl = c then false else b
  | _ => b

/-! ### Basic lemmas about the registry and directory operations -/

/-- Looking a key up after a JS-object assignment. -/
theorem lookupP_setP (l : List (String × Presence)) (k k' : String) (v : Presence) :
    lookupP (setP l k v) k' = if k' = k then some v else lookupP l k' := by
  induction l with
  | nil =>
      by_cases h : k' = k
      · subst h; simp [setP, lookupP]
      · simp [setP, lookupP, h, Ne.symm h]
  | cons hd tl ih =>
      obtain ⟨a, b⟩ := hd
      by_cases hak : a = k
      · subst hak
        by_cases h : k' = a
        · subst h; simp [setP, lookupP]
        · simp [setP, lookupP, h, Ne.symm h]
      · by_cases hak' : a = k'
        · subst hak'
          simp [setP, lookupP, hak, Ne.symm hak]
        · simp [setP, lookupP, hak, hak', ih]

/-- Looking a key up after a JS `delete`. -/
theorem lookupP_eraseP (l : List (String × Presence)) (k k' : String) :
    lookupP (eraseP l k) k' = if k' = k then none else lookupP l k' := by
  induction l with
  | nil => simp [eraseP, lookupP]
  | cons hd tl ih =>
      obtain ⟨a, b⟩ := hd
      by_cases hak : a = k
      · subst hak
        by_cases h : k' = a
        · subst h; simp [eraseP, lookupP, ih]
        · simp [eraseP, lookupP, h, Ne.symm h, ih]
      · by_cases hak' : a = k'
        · subst hak'
          simp [eraseP, lookupP, hak, Ne.symm hak]
        · simp [eraseP, lookupP, hak, hak', ih]

/-- Room membership unfolded to the underlying pair list. -/
theorem mem_roomMembers_iff (s : GatewayState) (r c : String) :
    c ∈ roomMembers s r ↔ (r, c) ∈ s.rooms := by
  simp only [roomMembers, List.mem_map, List.mem_filter, decide_eq_true_eq]
  constructor
  · rintro ⟨⟨r', c'⟩, ⟨hmem, hr⟩, hc⟩
    cases hr; cases hc; exact hmem
  · intro h; exact ⟨(r, c), ⟨h, rfl⟩, rfl⟩

/-- `client.join` really records the membership pair. -/
theorem mem_joinRoomPairs_self (rs : List (String × String)) (r c : String) :
    (r, c) ∈ joinRoomPairs rs r c := by
  unfold joinRoomPairs
  split
  · assumption
  · exact List.mem_append_right _ (by simp)

/-- `client.join` on an already-joined room changes nothing. -/
theorem joinRoomPairs_of_mem {rs : List (String × String)} {r c : String}
    (h : (r, c) ∈ rs) : joinRoomPairs rs r c = rs := by
  unfold joinRoomPairs
  exact if_pos h

/-- Explicit members are always targets of `server.to`. -/
theorem mem_targets_of_mem_roomMembers {s : GatewayState} {r c : String}
    (h : c ∈ roomMembers s r) : c ∈ targets s r :=
  List.mem_append_left _ h

/-- When the room name is not a live socket id, `server.to` reaches
exactly the explicit members. -/
theorem targets_of_not_live {s : GatewayState} {r : String}
    (h : r ∉ s.live) : targets s r = roomMembers s r := by
  simp [targets, h]

/-! ### Presence-existence dynamics -/

/-- Each event changes presence-entry existence exactly as
`presenceTrack` says: created by the connection's own `BE-join-room`,
deleted by its own `BE-leave-room`, untouched by everything else
(including transport disconnect, which has no gateway handler). -/
theorem step_presence (s : GatewayState) (e : Event) (c : String) :
    (lookupP (step s e).socketList c).isSome
      = presenceTrack c (lookupP s.socketList c).isSome e := by
  cases e with
  | connect x => rfl
  | disconnect x => rfl
  | checkUser cl r u => rfl
  | joinRoom cl r u =>
      simp only [step, handleJoinRoom, presenceTrack]
      rw [lookupP_setP]
      by_cases h : c = cl
      · subst h; simp
      · simp [h, Ne.symm h]
  | callUser cl t f sig => rfl
  | acceptCall cl sig t => rfl
  | sendMessage cl r m sn => rfl
  | leaveRoom cl r =>
      simp only [step, handleLeaveRoom, socketsMapIndex, presenceTrack]
      rw [lookupP_eraseP]
      by_cases h : c = cl
      · subst h; simp
      · simp [h, Ne.symm h]
  | toggleCameraAudio cl r t =>
      simp only [step, presenceTrack]
      cases hl : lookupP s.socketList cl with
      | none => simp [handleToggleCameraAudio, hl]
      | some p =>
          simp only [handleToggleCameraAudio, hl]
          rw [lookupP_setP]
          by_cases h : c = cl
          · subst h; simp [hl]
          · simp [h]

/-! ### Claim theorems -/

/-- C1: after connection `a` (having joined room `r1`) suffers a
transport disconnect, the adapter does exclude `a` from the room's
member set, but — the gateway implementing no `OnGatewayDisconnect`
handler — `a`'s presence entry survives in `socketList` as a phantom,
contradicting the claim that Presence lookup returns not-found. -/
theorem disconnect_leaves_phantom_presence :
    roomMembers (run s0 [.connect "a", .connect "b", .joinRoom "b" "r1" "bob",
        .joinRoom "a" "r1" "alice", .disconnect "a"]) "r1" = ["b"] ∧
    lookupP (run s0 [.connect "a", .connect "b", .joinRoom "b" "r1" "bob",
        .joinRoom "a" "r1" "alice", .disconnect "a"]).socketList "a"
      = some ⟨"alice", true, true⟩ := by
  constructor <;> decide

/-- C2: a `BE-toggle-camera-audio` event from a connection with no
presence entry does not fail silently: the handler dereferences
`this.socketList[client.id]` and throws a `TypeError` (modelled as
`none`), for both the video and the audio switch target. -/
theorem toggle_without_presence_throws :
    lookupP (run s0 [.connect "a"]).socketList "a" = none ∧
    handleToggleCameraAudio (run s0 [.connect "a"]) "a" "r1" "video" = none ∧
    handleToggleCameraAudio (run s0 [.connect "a"]) "a" "r1" "audio" = none := by
  refine ⟨?_, ?_, ?_⟩ <;> decide

/-- C3 counterexample: from the fresh state, connection `a` joins room
`r1` and then room `r2`; in the resulting reachable state `a` holds a
Presence entry while being a member of two rooms, refuting the
"member of exactly one room" direction of the claimed invariant. -/
theorem presence_iff_single_room_fails :
    (lookupP (run s0 [.connect "a", .joinRoom "a" "r1" "alice",
        .joinRoom "a" "r2" "alice"]).socketList "a").isSome = true ∧
    roomsOf (run s0 [.connect "a", .joinRoom "a" "r1" "alice",
        .joinRoom "a" "r2" "alice"]) "a" = ["r1", "r2"] := by
  constructor <;> decide

/-- C3 (amended): presence existence is decoupled from membership; what
every gateway operation preserves is that a connection has a Presence
entry exactly when the `presenceTrack` fold over the trace says so —
i.e. its last `BE-join-room`/`BE-leave-room` event was a join — while
room membership evolves independently (disconnects clear membership but
not presence, repeated joins grow membership under one presence). -/
theorem presence_existence_tracks_join_leave
    (es : List Event) (s : GatewayState) (c : String) :
    (lookupP (run s es).socketList c).isSome
      = es.foldl (presenceTrack c) (lookupP s.socketList c).isSome := by
  induction es generalizing s with
  | nil => rfl
  | cons e es ih =>
      rw [show run s (e :: es) = run (step s e) es from rfl, List.foldl_cons,
        ← step_presence]
      exact ih (step s e)

/-- C4: after `a` (a live member of `r1`) issues `BE-leave-room`, its
presence entry is deleted as claimed, but `a` is still a member of the
room: `this.server.sockets.sockets[leaverId]` bracket-indexes the
socket.io v3+ `Map` and yields `undefined`, so the guarded
`socketRoom.leave(roomId)` call is skipped. -/
theorem leave_room_retains_membership :
    "a" ∈ roomMembers (run s0 [.connect "a", .connect "b",
        .joinRoom "a" "r1" "alice", .joinRoom "b" "r1" "bob",
        .leaveRoom "a" "r1"]) "r1" ∧
    lookupP (run s0 [.connect "a", .connect "b",
        .joinRoom "a" "r1" "alice", .joinRoom "b" "r1" "bob",
        .leaveRoom "a" "r1"]).socketList "a" = none := by
  constructor <;> decide

/-- Unfolding of the source's `socketList[client]?.userName ===
data.userName` member comparison. -/
theorem nameMatches_iff (sl : List (String × Presence)) (c u : String) :
    nameMatches sl c u = true ↔
      ∃ p, lookupP sl c = some p ∧ p.userName = u := by
  unfold nameMatches
  cases h : lookupP sl c with
  | none => simp
  | some p => simp [h]

/-- C5: `BE-join-room` adds the connection to the room, creates its
presence entry with both media flags true, and emits the post-join
member snapshot (which contains the joiner with its fresh presence, and
pairs every member id with its presence lookup) as `FE-user-join` to
every other member of the room and never to the joiner itself. -/
theorem join_room_sets_presence_and_broadcasts
    (s : GatewayState) (client roomId userName : String) :
    client ∈ roomMembers (handleJoinRoom s client roomId userName).1 roomId ∧
    lookupP (handleJoinRoom s client roomId userName).1.socketList client
      = some ⟨userName, true, true⟩ ∧
    (client, some (⟨userName, true, true⟩ : Presence))
      ∈ memberSnapshot (handleJoinRoom s client roomId userName).1 roomId ∧
    (∀ r pl, (r, pl) ∈ (handleJoinRoom s client roomId userName).2 → r ≠ client) ∧
    (∀ m, m ∈ roomMembers (handleJoinRoom s client roomId userName).1 roomId →
      m ≠ client →
      (m, Payload.userJoin
          (memberSnapshot (handleJoinRoom s client roomId userName).1 roomId))
        ∈ (handleJoinRoom s client roomId userName).2) := by
  have hmem : client ∈ roomMembers (handleJoinRoom s client roomId userName).1 roomId := by
    rw [mem_roomMembers_iff]
    exact mem_joinRoomPairs_self _ _ _
  have hlook : lookupP (handleJoinRoom s client roomId userName).1.socketList client
      = some ⟨userName, true, true⟩ := by
    show lookupP (setP s.socketList client ⟨userName, true, true⟩) client = _
    rw [lookupP_setP, if_pos rfl]
  refine ⟨hmem, hlook, ?_, ?_, ?_⟩
  · exact List.mem_map.mpr
      ⟨client, mem_targets_of_mem_roomMembers hmem, by rw [hlook]⟩
  · intro r pl hr
    have hr' : (r, pl) ∈ ((targets (handleJoinRoom s client roomId userName).1 roomId).filter
        (fun c => c ≠ client)).map
        (fun x => (x, Payload.userJoin
          (memberSnapshot (handleJoinRoom s client roomId userName).1 roomId))) := hr
    obtain ⟨x, hx, hx3⟩ := List.mem_map.mp hr'
    cases hx3
    simpa using (List.mem_filter.mp hx).2
  · intro m hm hmc
    show (m, _) ∈ ((targets (handleJoinRoom s client roomId userName).1 roomId).filter
        (fun c => c ≠ client)).map _
    exact List.mem_map.mpr
      ⟨m, List.mem_filter.mpr
        ⟨mem_targets_of_mem_roomMembers hm, by simpa using hmc⟩, rfl⟩

/-- Witness for C5: with `b` already in room `r1`, `a` joining makes `b`
a recipient of the `FE-user-join` snapshot broadcast. -/
theorem join_room_broadcast_witness :
    "b" ∈ roomMembers (handleJoinRoom (run s0 [.connect "a", .connect "b",
        .joinRoom "b" "r1" "bob"]) "a" "r1" "alice").1 "r1" ∧
    ("b" : String) ≠ "a" ∧
    ("b", Payload.userJoin (memberSnapshot (handleJoinRoom (run s0 [.connect "a",
        .connect "b", .joinRoom "b" "r1" "bob"]) "a" "r1" "alice").1 "r1"))
      ∈ (handleJoinRoom (run s0 [.connect "a", .connect "b",
        .joinRoom "b" "r1" "bob"]) "a" "r1" "alice").2 :=
  ⟨by decide, by decide,
    (join_room_sets_presence_and_broadcasts (run s0 [.connect "a", .connect "b",
        .joinRoom "b" "r1" "bob"]) "a" "r1" "alice").2.2.2.2 "b" (by decide) (by decide)⟩

/-- C6: `BE-check-user` mutates nothing and answers the requesting
connection only, with a flag that is true exactly when some member of
the room holds a presence whose display name equals the requested name
under case-sensitive string equality (hypothesis: the queried room name
is not itself a live socket id). -/
theorem check_user_reports_name_collision
    (s : GatewayState) (client roomId userName : String) (h : roomId ∉ s.live) :
    (handleCheckUser s client roomId userName).1 = s ∧
    ∃ e : Bool, (handleCheckUser s client roomId userName).2
        = [(client, Payload.userExists e)] ∧
      (e = true ↔ ∃ m ∈ roomMembers s roomId,
        ∃ p, lookupP s.socketList m = some p ∧ p.userName = userName) := by
  refine ⟨rfl, (targets s roomId).any (fun c => nameMatches s.socketList c userName),
    rfl, ?_⟩
  rw [targets_of_not_live h, List.any_eq_true]
  simp only [nameMatches_iff]

/-- Witness for C6: the spec scenario — `a`/`b` joined `R1` as
alice/bob; a third connection `c` queries `R1`. -/
theorem check_user_witness :
    "R1" ∉ (run s0 [.connect "a", .connect "b", .connect "c",
        .joinRoom "a" "R1" "alice", .joinRoom "b" "R1" "bob"]).live ∧
    ((handleCheckUser (run s0 [.connect "a", .connect "b", .connect "c",
        .joinRoom "a" "R1" "alice", .joinRoom "b" "R1" "bob"]) "c" "R1" "alice").1
      = run s0 [.connect "a", .connect "b", .connect "c",
        .joinRoom "a" "R1" "alice", .joinRoom "b" "R1" "bob"] ∧
    ∃ e : Bool, (handleCheckUser (run s0 [.connect "a", .connect "b", .connect "c",
        .joinRoom "a" "R1" "alice", .joinRoom "b" "R1" "bob"]) "c" "R1" "alice").2
        = [("c", Payload.userExists e)] ∧
      (e = true ↔ ∃ m ∈ roomMembers (run s0 [.connect "a", .connect "b", .connect "c",
          .joinRoom "a" "R1" "alice", .joinRoom "b" "R1" "bob"]) "R1",
        ∃ p, lookupP (run s0 [.connect "a", .connect "b", .connect "c",
          .joinRoom "a" "R1" "alice", .joinRoom "b" "R1" "bob"]).socketList m
            = some p ∧ p.userName = "alice")) :=
  ⟨by decide, check_user_reports_name_collision (run s0 [.connect "a", .connect "b",
      .connect "c", .joinRoom "a" "R1" "alice", .joinRoom "b" "R1" "bob"])
    "c" "R1" "alice" (by decide)⟩

/-- C7: `BE-call-user` and `BE-accept-call` addressed to an id that is
neither a live socket nor a room with members change no state and send
nothing at all — in particular no error reaches the sender. -/
theorem relay_to_dead_target_is_noop
    (s : GatewayState) (client userToCall fromId signal signal2 toId : String)
    (h1 : userToCall ∉ s.live) (h2 : roomMembers s userToCall = [])
    (h3 : toId ∉ s.live) (h4 : roomMembers s toId = []) :
    handleCallUser s client userToCall fromId signal = (s, []) ∧
    handleAcceptCall s client signal2 toId = (s, []) := by
  have t1 : targets s userToCall = [] := by rw [targets_of_not_live h1, h2]
  have t2 : targets s toId = [] := by rw [targets_of_not_live h3, h4]
  constructor
  · simp [handleCallUser, t1]
  · simp [handleAcceptCall, t2]

/-- Witness for C7: live connection `a` relays to the nonexistent id
`ghost`; both relays are complete no-ops. -/
theorem relay_to_dead_target_witness :
    "ghost" ∉ (run s0 [.connect "a"]).live ∧
    roomMembers (run s0 [.connect "a"]) "ghost" = [] ∧
    (handleCallUser (run s0 [.connect "a"]) "a" "ghost" "a" "sig"
        = (run s0 [.connect "a"], []) ∧
      handleAcceptCall (run s0 [.connect "a"]) "a" "sig2" "ghost"
        = (run s0 [.connect "a"], [])) :=
  ⟨by decide, by decide,
    relay_to_dead_target_is_noop (run s0 [.connect "a"]) "a" "ghost" "a" "sig"
      "sig2" "ghost" (by decide) (by decide) (by decide) (by decide)⟩

/-- C8: joining the same room twice from the same connection leaves the
room's member-set size exactly as after the first join. -/
theorem join_room_twice_same_member_count
    (s : GatewayState) (client roomId userName userName2 : String) :
    (roomMembers (handleJoinRoom (handleJoinRoom s client roomId userName).1
        client roomId userName2).1 roomId).length
      = (roomMembers (handleJoinRoom s client roomId userName).1 roomId).length := by
  have h : (handleJoinRoom (handleJoinRoom s client roomId userName).1
        client roomId userName2).1.rooms
      = (handleJoinRoom s client roomId userName).1.rooms := by
    show joinRoomPairs (joinRoomPairs s.rooms roomId client) roomId client
      = joinRoomPairs s.rooms roomId client
    exact joinRoomPairs_of_mem (mem_joinRoomPairs_self _ _ _)
  unfold roomMembers
  rw [h]

/-- C9: the `FE-receive-call` payload carries the inbound `from` field
verbatim while its `info` is the presence of the actual sender; at a
concrete input where sender `a` (alice) spoofs `from = "b"`, the target
receives `from = "b"` yet alice's presence — and `b`'s own presence is
bob, a different entry. -/
theorem call_user_from_field_unbound :
    (∀ (s : GatewayState) (client userToCall fromId signal : String),
      handleCallUser s client userToCall fromId signal
        = (s, (targets s userToCall).map
            (fun r => (r, Payload.receiveCall signal fromId
              (lookupP s.socketList client))))) ∧
    (handleCallUser (run s0 [.connect "a", .connect "b",
        .joinRoom "a" "r1" "alice", .joinRoom "b" "r1" "bob"]) "a" "b" "b" "sig").2
      = [("b", Payload.receiveCall "sig" "b" (some ⟨"alice", true, true⟩))] ∧
    lookupP (run s0 [.connect "a", .connect "b",
        .joinRoom "a" "r1" "alice", .joinRoom "b" "r1" "bob"]).socketList "b"
      = some ⟨"bob", true, true⟩ ∧
    (⟨"alice", true, true⟩ : Presence) ≠ ⟨"bob", true, true⟩ :=
  ⟨fun s client userToCall fromId signal => rfl, by decide, by decide, by decide⟩

/-- C10: `BE-send-message` changes no state and delivers `{msg, sender}`
to every member of the room, with no membership or presence condition on
the sending connection (which is universally quantified and unused). -/
theorem send_message_reaches_all_members
    (s : GatewayState) (client roomId msg sender : String) :
    (handleSendMessage s client roomId msg sender).1 = s ∧
    ∀ m, m ∈ roomMembers s roomId →
      (m, Payload.receiveMessage msg sender)
        ∈ (handleSendMessage s client roomId msg sender).2 := by
  refine ⟨rfl, fun m hm => ?_⟩
  show (m, _) ∈ (targets s roomId).map _
  exact List.mem_map.mpr ⟨m, mem_targets_of_mem_roomMembers hm, rfl⟩

/-- Witness for C10: connection `z` is live but has no presence and is
not a member of `r1`; its message still reaches member `b`. -/
theorem send_message_witness :
    "b" ∈ roomMembers (run s0 [.connect "b", .joinRoom "b" "r1" "bob",
        .connect "z"]) "r1" ∧
    lookupP (run s0 [.connect "b", .joinRoom "b" "r1" "bob",
        .connect "z"]).socketList "z" = none ∧
    "z" ∉ roomMembers (run s0 [.connect "b", .joinRoom "b" "r1" "bob",
        .connect "z"]) "r1" ∧
    ("b", Payload.receiveMessage "hi" "zed")
      ∈ (handleSendMessage (run s0 [.connect "b", .joinRoom "b" "r1" "bob",
        .connect "z"]) "z" "r1" "hi" "zed").2 :=
  ⟨by decide, by decide, by decide,
    (send_message_reaches_all_members (run s0 [.connect "b", .joinRoom "b" "r1" "bob",
      .connect "z"]) "z" "r1" "hi" "zed").2 "b" (by decide)⟩
